import Mathlib

set_option autoImplicit false

namespace BleakSearch

/-! Shallow embedding of `src/bleak/backends/dotnet/search.py` (bleak dotnet
advertisement scanning): the GAP advertisement codec, the device filter
applied in the `Received` callback, the seen-address deduplication, and the
consumer polling loop of `find`. -/

/-- The `GAPDataType` closed `enum.IntEnum` of GAP advertising data type codes. -/
inductive GAPDataType where
  | Flags
  | Incomplete_List_of_16bit_Service_Class_UUIDs
  | Complete_List_of_16bit_Service_Class_UUIDs
  | Incomplete_List_of_32bit_Service_Class_UUIDs
  | Complete_List_of_32bit_Service_Class_UUIDs
  | Incomplete_List_of_128bit_Service_Class_UUIDs
  | Complete_List_of_128bit_Service_Class_UUIDs
  | Shortened_Local_Name
  | Complete_Local_Name
  | Tx_Power_Level
  | Class_of_Device
  | Simple_Pairing_Hash_C192
  | Simple_Pairing_Randomizer_R192
  | Device_ID_or_Security_Manager_TK_Value
  | Security_Manager_Out_of_Band_Flags
  | Slave_Connection_Interval_Range
  | List_of_16bit_Service_Solicitation_UUIDs
  | List_of_128bit_Service_Solicitation_UUIDs
  | Service_Data_16bit_UUID
  | Public_Target_Address
  | Random_Target_Address
  | Appearance
  | Advertising_Interval
  | LE_Bluetooth_Device_Address
  | LE_Role
  | Simple_Pairing_Hash_C256
  | Simple_Pairing_Randomizer_R256
  | List_of_32bit_Service_Solicitation_UUIDs
  | Service_Data_32bit_UUID
  | Service_Data_128bit_UUID
  | LE_Secure_Connections_Confirmation_Value
  | LE_Secure_Connections_Random_Value
  | URI
  | Indoor_Positioning
  | Transport_Discovery_Data
  | LE_Supported_Features
  | Channel_Map_Update_Indication
  | PB_ADV
  | Mesh_Message
  | Mesh_Beacon
  | Information_Data_3D
  | Manufacturer_Specific_Data
  deriving DecidableEq, Repr

/-- Lookup of a wire code in the closed enumeration: `GAPDataType(value)` in
Python returns the member for a known value and raises `ValueError` (here:
`none`) for any other value, since the `IntEnum` has no fallback. -/
def GAPDataType.ofCode? : Nat → Option GAPDataType
  | 0x01 => some .Flags
  | 0x02 => some .Incomplete_List_of_16bit_Service_Class_UUIDs
  | 0x03 => some .Complete_List_of_16bit_Service_Class_UUIDs
  | 0x04 => some .Incomplete_List_of_32bit_Service_Class_UUIDs
  | 0x05 => some .Complete_List_of_32bit_Service_Class_UUIDs
  | 0x06 => some .Incomplete_List_of_128bit_Service_Class_UUIDs
  | 0x07 => some .Complete_List_of_128bit_Service_Class_UUIDs
  | 0x08 => some .Shortened_Local_Name
  | 0x09 => some .Complete_Local_Name
  | 0x0A => some .Tx_Power_Level
  | 0x0D => some .Class_of_Device
  | 0x0E => some .Simple_Pairing_Hash_C192
  | 0x0F => some .Simple_Pairing_Randomizer_R192
  | 0x10 => some .Device_ID_or_Security_Manager_TK_Value
  | 0x11 => some .Security_Manager_Out_of_Band_Flags
  | 0x12 => some .Slave_Connection_Interval_Range
  | 0x14 => some .List_of_16bit_Service_Solicitation_UUIDs
  | 0x15 => some .List_of_128bit_Service_Solicitation_UUIDs
  | 0x16 => some .Service_Data_16bit_UUID
  | 0x17 => some .Public_Target_Address
  | 0x18 => some .Random_Target_Address
  | 0x19 => some .Appearance
  | 0x1A => some .Advertising_Interval
  | 0x1B => some .LE_Bluetooth_Device_Address
  | 0x1C => some .LE_Role
  | 0x1D => some .Simple_Pairing_Hash_C256
  | 0x1E => some .Simple_Pairing_Randomizer_R256
  | 0x1F => some .List_of_32bit_Service_Solicitation_UUIDs
  | 0x20 => some .Service_Data_32bit_UUID
  | 0x21 => some .Service_Data_128bit_UUID
  | 0x22 => some .LE_Secure_Connections_Confirmation_Value
  | 0x23 => some .LE_Secure_Connections_Random_Value
  | 0x24 => some .URI
  | 0x25 => some .Indoor_Positioning
  | 0x26 => some .Transport_Discovery_Data
  | 0x27 => some .LE_Supported_Features
  | 0x28 => some .Channel_Map_Update_Indication
  | 0x29 => some .PB_ADV
  | 0x2A => some .Mesh_Message
  | 0x2B => some .Mesh_Beacon
  | 0x3D => some .Information_Data_3D
  | 0xFF => some .Manufacturer_Specific_Data
  | _ => none

/-- `Advertisement.DataSection`: a decoded GAP data section. -/
structure DataSection where
  data_type : GAPDataType
  data : List Nat
  deriving DecidableEq, Repr

/-- `Advertisement.DataSection.__init__`: sets `data_type = GAPDataType(ds.DataType)`
(which raises `ValueError`, i.e. `none`, for a code outside the enumeration) and
copies the payload bytes. -/
def DataSection.init (code : Nat) (payload : List Nat) : Option DataSection :=
  match GAPDataType.ofCode? code with
  | some t => some { data_type := t, data := payload }
  | none => none

/-- Python `int.from_bytes(data, 'big')`: unsigned big-endian interpretation
(the source never passes `signed=True`). -/
def intFromBytesBE (bs : List Nat) : Nat :=
  bs.foldl (fun acc b => 256 * acc + b) 0

/-- The list comprehension `[self.DataSection(ds) for ds in args.DataSections]`:
sections are decoded left to right and the first `ValueError` propagates,
aborting the whole comprehension. -/
def decodeSections : List (Nat × List Nat) → Option (List DataSection)
  | [] => some []
  | (c, p) :: rest =>
    match DataSection.init c p with
    | none => none
    | some ds =>
      match decodeSections rest with
      | none => none
      | some tail => some (ds :: tail)

/-- The `for ds in self.data_sections` loop at the end of `Advertisement.__init__`:
each `Appearance` section overwrites `self.appearance` and each `Tx_Power_Level`
section overwrites `self.tx_power_level`, both via `int.from_bytes(ds.data, 'big')`. -/
def parseKnownSections : List DataSection → Option Nat → Option Nat → Option Nat × Option Nat
  | [], app, txp => (app, txp)
  | ds :: rest, app, txp =>
    if ds.data_type = .Appearance then
      parseKnownSections rest (some (intFromBytesBE ds.data)) txp
    else if ds.data_type = .Tx_Power_Level then
      parseKnownSections rest app (some (intFromBytesBE ds.data))
    else
      parseKnownSections rest app txp

/-- The fields of the platform `BluetoothLEAdvertisement` consumed by
`Advertisement.__init__`; `flagsValue = none` models a null `args.Flags`
reference, `some v` the numeric flags value `v`. -/
structure RawAdvertisement where
  dataSections : List (Nat × List Nat)
  flagsValue : Option Nat
  localName : String
  manufacturerData : List (Nat × List Nat)
  serviceUuids : List String
  deriving DecidableEq, Repr

/-- The decoded `Advertisement` record. -/
structure Advertisement where
  data_sections : List DataSection
  flags : Option Nat
  local_name : String
  manufacturer_data : List (Nat × List Nat)
  services : List String
  appearance : Option Nat
  tx_power_level : Option Nat
  deriving DecidableEq, Repr

/-- `Advertisement.__init__`: decodes the sections (propagating the `ValueError`
of an unknown type code), keeps `flags` only when `args.Flags` is truthy (neither
null nor zero), copies name, manufacturer data and service UUIDs, then scans the
decoded sections for `Appearance` and `Tx_Power_Level`. -/
def Advertisement.init (args : RawAdvertisement) : Option Advertisement :=
  match decodeSections args.dataSections with
  | none => none
  | some secs =>
    let parsed := parseKnownSections secs none none
    some { data_sections := secs
           flags := match args.flagsValue with
                    | some v => if v ≠ 0 then some v else none
                    | none => none
           local_name := args.localName
           manufacturer_data := args.manufacturerData
           services := args.serviceUuids
           appearance := parsed.1
           tx_power_level := parsed.2 }

/-- A filter value for `mac`, `name` or a `services` entry: either a plain
string or a compiled regex `Pattern`, modelled as an abstract anchored-match
predicate on strings. -/
inductive StrFilter where
  | str : String → StrFilter
  | pattern : (String → Bool) → StrFilter

/-- Python truthiness of a filter value (`if mac:` / `if name:`): an empty
string is falsy, every other string and every compiled pattern is truthy. -/
def StrFilter.truthy : StrFilter → Bool
  | .str s => !s.isEmpty
  | .pattern _ => true

/-- The rejection test the `Received` callback applies to the `mac` and `name`
filters: an exact string must equal the candidate, a pattern must match it. -/
def StrFilter.rejects (f : StrFilter) (s : String) : Bool :=
  match f with
  | .str t => t ≠ s
  | .pattern p => !p s

/-- One iteration of the `for service in services` loop in
`advertisement_watcher__received`: the event is rejected when `service` is a
string not contained in the advertised services, or when the `name` filter — the
variable actually tested by the second `if`, not `service` — is a pattern
matching none of the advertised services. -/
def serviceEntryRejects (name : Option StrFilter) (advServices : List String)
    (service : StrFilter) : Bool :=
  (match service with
   | .str s => !advServices.contains s
   | .pattern _ => false) ||
  (match name with
   | some (.pattern p) => !advServices.any p
   | _ => false)

/-- The fields of `AdvertisementReceivedEventArgs` read by the filter in
`advertisement_watcher__received`. -/
structure ReceivedEvent where
  bluetooth_address : String
  local_name : String
  services : List String
  deriving DecidableEq, Repr

/-- The acceptance decision of `advertisement_watcher__received`: an event
survives the `mac` block, the `name` block and the `services` block (each an
early `return` on failure in the source, hence a conjunction here). -/
def receivedAccepts (mac name : Option StrFilter) (services : List StrFilter)
    (ev : ReceivedEvent) : Bool :=
  (match mac with
   | some f => !f.truthy || !f.rejects ev.bluetooth_address
   | none => true) &&
  (match name with
   | some f => !f.truthy || !f.rejects ev.local_name
   | none => true) &&
  (if services.isEmpty then true
   else if ev.services.isEmpty then false
   else !services.any (serviceEntryRejects name ev.services))

/-- What the spec's services-filter sentence asks for, stated from its words:
every entry of the filter's service set — exact string or pattern — is matched
by at least one advertised UUID. -/
def specEntryMatches (entry : StrFilter) (uuid : String) : Bool :=
  match entry with
  | .str s => s = uuid
  | .pattern p => p uuid

/-- Spec-side services predicate: AND across filter entries, OR within matching
a single entry (for comparison with the source-side `receivedAccepts`). -/
def specServicesFilterSatisfied (entries : List StrFilter) (advServices : List String) : Bool :=
  entries.all (fun e => advServices.any (specEntryMatches e))

/-- `BLEDevice(address, name, details)` as constructed in the `Received`
callback, with `details` the decoded event. -/
structure BLEDevice where
  address : String
  name : String
  details : ReceivedEvent
  deriving DecidableEq, Repr

/-- The shared mutable state of `find`: the `devices` dict (an insertion-ordered
address-keyed map, of which only membership/lookup is used) and the
`new_devices` list that the consumer loop pops from. -/
structure ScanState where
  devices : List (String × BLEDevice)
  new_devices : List BLEDevice
  deriving DecidableEq, Repr

def initialScanState : ScanState := { devices := [], new_devices := [] }

/-- The state update of `advertisement_watcher__received`: if the event passes
all filters and its address is not yet a key of `devices`, the device is stored
and appended to `new_devices`; otherwise the state is unchanged. -/
def advertisement_watcher__received (mac name : Option StrFilter)
    (services : List StrFilter) (st : ScanState) (ev : ReceivedEvent) : ScanState :=
  let device : BLEDevice := { address := ev.bluetooth_address, name := ev.local_name, details := ev }
  if receivedAccepts mac name services ev then
    if (st.devices.lookup device.address).isNone then
      { devices := st.devices ++ [(device.address, device)]
        new_devices := st.new_devices ++ [device] }
    else st
  else st

/-- Folding the `Received` callback over a platform-delivery-ordered list of
events. -/
def processEvents (mac name : Option StrFilter) (services : List StrFilter)
    (events : List ReceivedEvent) (st : ScanState) : ScanState :=
  events.foldl (advertisement_watcher__received mac name services) st

/-- The `BluetoothLEAdvertisementWatcherStatus` enumeration. -/
inductive AdvertisementWatcherStatus where
  | Created
  | Started
  | Stopping
  | Stopped
  | Aborted
  deriving DecidableEq, Repr

/-- The condition of the consumer `while` loop in `find`:
`watcher.Status in (Started.value, Stopping.value)`. -/
def statusKeepsPolling : AdvertisementWatcherStatus → Bool
  | .Started => true
  | .Stopping => true
  | _ => false

/-- One observation point of the consumer loop: the watcher status it reads and
the devices the callback thread appended to `new_devices` since the previous
poll. -/
structure LoopStep where
  status : AdvertisementWatcherStatus
  arrivals : List BLEDevice
  deriving Repr

/-- The consumer loop of `find` over an interleaving trace: at each step the
freshly arrived devices are appended to the pending `new_devices` list; while
the status is `Started` or `Stopping` the loop yields `new_devices.pop()` — the
LAST pending element — once per iteration; any other status exits the loop,
ending the async generator with no further output and no error. -/
def findLoop : List LoopStep → List BLEDevice → List BLEDevice
  | [], _ => []
  | step :: rest, pending =>
    let q := pending ++ step.arrivals
    if statusKeepsPolling step.status then
      match q.getLast? with
      | some d => d :: findLoop rest q.dropLast
      | none => findLoop rest q
    else []

/-- Characters kept by `re.sub(r"[^A-F\d]", "", mac.upper())` (ASCII model). -/
def isMacHexChar (c : Char) : Bool :=
  ('A' ≤ c && c ≤ 'F') || c.isDigit

/-- `mac.upper()` followed by the `re.sub` deletion of every non-`[A-F\d]`
character. -/
def macStripped (s : String) : List Char :=
  (s.toList.map Char.toUpper).filter isMacHexChar

/-- The slices `mac[i:i + 2] for i in range(0, len(mac), 2)`. -/
def pySlices (l : List Char) : List (List Char) :=
  (List.range ((l.length + 1) / 2)).map (fun k => (l.drop (2 * k)).take 2)

/-- The MAC-string normalization performed in the filter-check region of
`find`: uppercase, strip separators, re-join two-character slices with ":". -/
def normalizeMacFilter (s : String) : String :=
  String.intercalate ":" ((pySlices (macStripped s)).map String.mk)

/-- Structural pairing of a character list into byte pairs, written from the
spec's words ("re-joining byte pairs with colons") for comparison with the
index-arithmetic slicing of the source. -/
def chunksOfTwo : List Char → List (List Char)
  | [] => []
  | [c] => [[c]]
  | a :: b :: rest => [a, b] :: chunksOfTwo rest

/-- Spec-side MAC normalization: uppercase, keep hex-digit characters, join
structural byte pairs with colons. -/
def specNormalizeMac (s : String) : String :=
  String.intercalate ":" ((chunksOfTwo (macStripped s)).map String.mk)

/-- Value of a section under the Appearance bucket of the parse loop (used to
state which sections feed the `appearance` field). -/
def appearanceOf (ds : DataSection) : Option Nat :=
  if ds.data_type = .Appearance then some (intFromBytesBE ds.data) else none

/-- Value of a section under the Tx_Power_Level bucket of the parse loop. -/
def txPowerOf (ds : DataSection) : Option Nat :=
  if ds.data_type = .Tx_Power_Level then some (intFromBytesBE ds.data) else none

/-- Raw advertisement carrying two Appearance sections with different values. -/
def c5raw : RawAdvertisement :=
  { dataSections := [(0x19, [0, 1]), (0x19, [0, 2])], flagsValue := none,
    localName := "", manufacturerData := [], serviceUuids := [] }

/-- Raw advertisement carrying a Tx_Power_Level section with payload byte 0xF0. -/
def c6raw : RawAdvertisement :=
  { dataSections := [(0x0A, [0xF0])], flagsValue := none,
    localName := "", manufacturerData := [], serviceUuids := [] }

/-- Raw advertisement with a single Tx_Power_Level section of payload `[b]`. -/
def txOnlyRaw (b : Nat) : RawAdvertisement :=
  { dataSections := [(0x0A, [b])], flagsValue := none,
    localName := "", manufacturerData := [], serviceUuids := [] }

/-- Raw advertisement with a single Appearance section of payload `[hi, lo]`. -/
def appearanceOnlyRaw (hi lo : Nat) : RawAdvertisement :=
  { dataSections := [(0x19, [hi, lo])], flagsValue := none,
    localName := "", manufacturerData := [], serviceUuids := [] }

/-- Raw advertisement whose only section has the non-enumerated type code 0x0B. -/
def unknownCodeRaw : RawAdvertisement :=
  { dataSections := [(0x0B, [])], flagsValue := none,
    localName := "", manufacturerData := [], serviceUuids := [] }

/-- Raw advertisement with an unknown-code section followed by a valid Flags
section. -/
def unknownThenFlagsRaw : RawAdvertisement :=
  { dataSections := [(0x0B, [0x12]), (0x01, [0x06])], flagsValue := none,
    localName := "", manufacturerData := [], serviceUuids := [] }

/-- A concrete service-filter match predicate standing for a compiled regex. -/
def c1Pat : String → Bool := fun s => s == "ABCD-0000-1000-8000-00805f9b34fb"

/-- A concrete event advertising one service UUID that `c1Pat` does not match. -/
def c1Event : ReceivedEvent :=
  { bluetooth_address := "11:22:33:44:55:66", local_name := "Dev",
    services := ["0000180a-0000-1000-8000-00805f9b34fb"] }

def c3devA : BLEDevice :=
  { address := "AA:AA:AA:AA:AA:AA", name := "A",
    details := { bluetooth_address := "AA:AA:AA:AA:AA:AA", local_name := "A", services := [] } }

def c3devB : BLEDevice :=
  { address := "BB:BB:BB:BB:BB:BB", name := "B",
    details := { bluetooth_address := "BB:BB:BB:BB:BB:BB", local_name := "B", services := [] } }

def c4dev : BLEDevice :=
  { address := "CC:CC:CC:CC:CC:CC", name := "C",
    details := { bluetooth_address := "CC:CC:CC:CC:CC:CC", local_name := "C", services := [] } }

def c7devA : BLEDevice :=
  { address := "DD:DD:DD:DD:DD:01", name := "first",
    details := { bluetooth_address := "DD:DD:DD:DD:DD:01", local_name := "first", services := [] } }

def c7devB : BLEDevice :=
  { address := "DD:DD:DD:DD:DD:02", name := "second",
    details := { bluetooth_address := "DD:DD:DD:DD:DD:02", local_name := "second", services := [] } }

def w8ev : ReceivedEvent :=
  { bluetooth_address := "EE:EE:EE:EE:EE:01", local_name := "w", services := [] }

def w8dev : BLEDevice :=
  { address := "EE:EE:EE:EE:EE:01", name := "w", details := w8ev }

def w8st : ScanState := { devices := [("EE:EE:EE:EE:EE:01", w8dev)], new_devices := [w8dev] }

/-- The Appearance and Tx_Power_Level accumulators of the parse loop are the
fold that keeps the most recent matching value. -/
theorem parseKnownSections_eq (secs : List DataSection) : ∀ app txp,
    parseKnownSections secs app txp =
      ((secs.filterMap appearanceOf).foldl (fun _ v => some v) app,
       (secs.filterMap txPowerOf).foldl (fun _ v => some v) txp) := by
  induction secs with
  | nil => intro app txp; rfl
  | cons ds rest ih =>
    intro app txp
    by_cases hA : ds.data_type = .Appearance
    · simp [parseKnownSections, hA, appearanceOf, txPowerOf, List.filterMap_cons, ih]
    · by_cases hT : ds.data_type = .Tx_Power_Level
      · simp [parseKnownSections, hA, hT, appearanceOf, txPowerOf, List.filterMap_cons, ih]
      · simp [parseKnownSections, hA, hT, appearanceOf, txPowerOf, List.filterMap_cons, ih]

/-- Folding keep-the-newest over a list lands on the last element when there is
one and on the start value otherwise. -/
theorem foldl_choose_last (l : List Nat) : ∀ d : Option Nat,
    l.foldl (fun _ v => some v) d = (l.getLast?).elim d some := by
  induction l with
  | nil => intro d; rfl
  | cons v rest ih =>
    intro d
    rw [List.foldl_cons, ih (some v)]
    cases rest with
    | nil => rfl
    | cons b t =>
      rw [List.getLast?_cons_cons]
      cases h : (b :: t).getLast? with
      | none => exact absurd (List.getLast?_eq_none_iff.mp h) (by simp)
      | some w => rfl

/-- Python slicing over an even start-index range agrees with structural
pairing on the singleton list. -/
theorem pySlices_singleton (c : Char) : pySlices [c] = [[c]] := by
  simp [pySlices, List.range_succ]

/-- Peeling two characters off the front commutes with the slicing. -/
theorem pySlices_cons_cons (a b : Char) (l : List Char) :
    pySlices (a :: b :: l) = [a, b] :: pySlices l := by
  unfold pySlices
  have hlen : ((a :: b :: l).length + 1) / 2 = (l.length + 1) / 2 + 1 := by
    simp [List.length_cons]
    omega
  rw [hlen, List.range_succ_eq_map]
  simp [Function.comp, Nat.mul_succ, List.drop_succ_cons, Nat.mul_comm]
  intro k hk
  have h2 : k + 1 + (k + 1) = k + k + 1 + 1 := by ring
  rw [h2, List.drop_succ_cons, List.drop_succ_cons]

/-- The index-arithmetic slicing of the source equals structural byte pairing. -/
theorem pySlices_eq_chunksOfTwo (l : List Char) : pySlices l = chunksOfTwo l := by
  induction l using chunksOfTwo.induct with
  | case1 => rfl
  | case2 c => rw [pySlices_singleton]; rfl
  | case3 a b rest ih => rw [pySlices_cons_cons, chunksOfTwo, ih]

/-- A section list containing a non-enumerated type code fails to decode. -/
theorem decodeSections_none_of_unknown (l : List (Nat × List Nat)) (c : Nat) (p : List Nat)
    (hmem : (c, p) ∈ l) (hunk : GAPDataType.ofCode? c = none) :
    decodeSections l = none := by
  induction l with
  | nil => simp at hmem
  | cons x rest ih =>
    cases x with
    | mk a b =>
      rcases List.mem_cons.mp hmem with h | h
      · rw [Prod.mk.injEq] at h
        rw [← h.1]
        simp [decodeSections, DataSection.init, hunk]
      · cases hD : DataSection.init a b <;> simp [decodeSections, hD, ih h]

/-- A successful lookup survives appending further entries to the map. -/
theorem lookup_append_some {l l' : List (String × BLEDevice)} {k : String} {d : BLEDevice}
    (h : l.lookup k = some d) : (l ++ l').lookup k = some d := by
  induction l with
  | nil => simp [List.lookup] at h
  | cons x rest ih =>
    cases x with
    | mk a v =>
      simp only [List.cons_append, List.lookup] at h ⊢
      cases hk : (k == a) with
      | true =>
        rw [hk] at h
        simp at h ⊢
        exact h
      | false =>
        rw [hk] at h
        simp at h ⊢
        exact ih h

/-- A failed lookup defers to the appended entries. -/
theorem lookup_append_none {l l' : List (String × BLEDevice)} {k : String}
    (h : l.lookup k = none) : (l ++ l').lookup k = l'.lookup k := by
  induction l with
  | nil => simp
  | cons x rest ih =>
    cases x with
    | mk a v =>
      simp only [List.cons_append, List.lookup] at h ⊢
      cases hk : (k == a) with
      | true =>
        rw [hk] at h
        simp at h
      | false =>
        rw [hk] at h
        exact ih h

/-- One `Received` callback preserves the session invariant: emitted addresses
are pairwise distinct and every emitted device has an entry in the map. -/
theorem received_preserves (mac name : Option StrFilter) (services : List StrFilter)
    (st : ScanState) (ev : ReceivedEvent)
    (h1 : (st.new_devices.map BLEDevice.address).Nodup)
    (h2 : ∀ d ∈ st.new_devices, (st.devices.lookup d.address).isSome) :
    (((advertisement_watcher__received mac name services st ev).new_devices.map
        BLEDevice.address).Nodup ∧
     ∀ d ∈ (advertisement_watcher__received mac name services st ev).new_devices,
       ((advertisement_watcher__received mac name services st ev).devices.lookup
         d.address).isSome) := by
  simp only [advertisement_watcher__received]
  by_cases hacc : receivedAccepts mac name services ev = true
  · simp only [if_pos hacc]
    by_cases hnone : (st.devices.lookup ev.bluetooth_address).isNone = true
    · simp only [if_pos hnone]
      rw [Option.isNone_iff_eq_none] at hnone
      constructor
      · rw [List.map_append, List.nodup_append]
        refine ⟨h1, by simp, ?_⟩
        intro x hx hx'
        simp at hx'
        subst hx'
        obtain ⟨d, hd, hda⟩ := List.mem_map.mp hx
        have hs := h2 d hd
        rw [hda, hnone] at hs
        simp at hs
      · intro d hd
        rcases List.mem_append.mp hd with hmem | hmem
        · obtain ⟨dd, hdd⟩ := Option.isSome_iff_exists.mp (h2 d hmem)
          simp [lookup_append_some hdd]
        · simp at hmem
          subst hmem
          rw [lookup_append_none hnone]
          simp [List.lookup]
    · simp only [if_neg hnone]
      exact ⟨h1, h2⟩
  · simp only [if_neg hacc]
    exact ⟨h1, h2⟩

/-- Folding the callback over any event list preserves distinctness of the
emitted addresses. -/
theorem processEvents_invariant (mac name : Option StrFilter) (services : List StrFilter)
    (events : List ReceivedEvent) : ∀ st : ScanState,
    (st.new_devices.map BLEDevice.address).Nodup →
    (∀ d ∈ st.new_devices, (st.devices.lookup d.address).isSome) →
    ((processEvents mac name services events st).new_devices.map BLEDevice.address).Nodup := by
  induction events with
  | nil => intro st h1 h2; simpa [processEvents] using h1
  | cons e rest ih =>
    intro st h1 h2
    have step := received_preserves mac name services st e h1 h2
    simpa [processEvents, List.foldl_cons] using ih _ step.1 step.2

/-- C1: refuted on the code (code bug). The claim says the services filter is
satisfied only when every entry — exact string or pattern — is matched by some
advertised UUID. In the source the pattern branch of the `for service in
services` loop tests the `name` variable instead of `service` (its own log
message even formats `service.pattern`), so with no name filter a pattern
service entry is never checked: the event below is accepted by the code
although its single pattern entry matches none of the advertised services, as
the spec-side predicate confirms. -/
theorem c1_pattern_service_entry_ignored :
    receivedAccepts none none [StrFilter.pattern c1Pat] c1Event = true ∧
    specServicesFilterSatisfied [StrFilter.pattern c1Pat] c1Event.services = false := by
  constructor
  · rfl
  · decide

/-- C2 counterexample: decoding a section list whose first section carries the
non-enumerated type code 0x0B yields `none` — the `ValueError` raised by the
`GAPDataType` constructor — so decoding errors out and the remaining valid
Flags section is never decoded; nothing is retained as an opaque section. -/
theorem c2_unknown_code_not_retained :
    Advertisement.init unknownThenFlagsRaw = none := rfl

/-- C2 amended: any raw advertisement containing a data section whose type code
is outside the `GAPDataType` enumeration fails to decode as a whole — the
closed `IntEnum` constructor raises instead of retaining an opaque section. -/
theorem c2_unknown_code_raises (raw : RawAdvertisement) (c : Nat) (p : List Nat)
    (hmem : (c, p) ∈ raw.dataSections) (hunk : GAPDataType.ofCode? c = none) :
    Advertisement.init raw = none := by
  simp [Advertisement.init, decodeSections_none_of_unknown raw.dataSections c p hmem hunk]

/-- C2 witness: the amended theorem applied to the concrete one-section
advertisement with type code 0x0B. -/
theorem c2_unknown_code_raises_witness :
    Advertisement.init unknownCodeRaw = none :=
  c2_unknown_code_raises unknownCodeRaw 0x0B [] (by simp [unknownCodeRaw]) rfl

/-- C3: refuted on the code (code bug). `find` schedules `stop_scan` purely by
timer (`loop.call_later(timeout, stop_scan)`, which for a negative timeout
fires at once) and its consumer loop never counts emissions, contrary to the
docstring promise that a negative timeout stops at the first found device. On
a trace where the stop lands before any arrival the loop emits zero items; on
a trace where two devices arrive while the watcher is still Started it emits
two — never the promised exactly one. -/
theorem c3_timer_only_stop_eval :
    findLoop [{ status := .Stopping, arrivals := [] }, { status := .Stopped, arrivals := [] }] [] = [] ∧
    findLoop [{ status := .Started, arrivals := [c3devA, c3devB] },
              { status := .Started, arrivals := [] },
              { status := .Stopped, arrivals := [] }] [] = [c3devB, c3devA] := by
  constructor <;> rfl

/-- C4 counterexample: a session whose watcher transitions Started → Aborted
produces output identical to one transitioning Started → Stopped — the abort is
indistinguishable from a normal stop at the generator interface. -/
theorem c4_abort_like_normal_stop_cex :
    findLoop [{ status := .Started, arrivals := [c4dev] }, { status := .Aborted, arrivals := [] }] [] =
    findLoop [{ status := .Started, arrivals := [c4dev] }, { status := .Stopped, arrivals := [] }] [] := rfl

/-- C4 amended: when the polled status is Aborted the consumer loop exits
exactly as for Stopped, ending the sequence with no further items and no error
value — a platform abort is silently conflated with a normal stop. -/
theorem c4_abort_ends_sequence_silently (ar : List BLEDevice) (t : List LoopStep) (q : List BLEDevice) :
    findLoop ({ status := .Aborted, arrivals := ar } :: t) q = [] ∧
    findLoop ({ status := .Stopped, arrivals := ar } :: t) q = [] := by
  constructor <;> rfl

/-- C5 counterexample: with two Appearance sections of payloads [0, 1] and
[0, 2] in that order, the decoded appearance is 2 — the value of the LAST
section — and not 1 as the first-one-wins claim predicts. -/
theorem c5_last_wins_cex :
    (Advertisement.init c5raw).map Advertisement.appearance = some (some 2) ∧
    (Advertisement.init c5raw).map Advertisement.appearance ≠ some (some 1) := by
  constructor
  · rfl
  · decide

/-- C5 amended: for duplicated singleton sections the last one in decoding
order wins — the appearance and tx-power accumulators of the parse loop equal
the value of the last section of the corresponding type, because each matching
section overwrites the field. -/
theorem c5_singleton_sections_last_wins (secs : List DataSection) :
    parseKnownSections secs none none =
      ((secs.filterMap appearanceOf).getLast?, (secs.filterMap txPowerOf).getLast?) := by
  rw [parseKnownSections_eq, foldl_choose_last, foldl_choose_last]
  cases hA : (secs.filterMap appearanceOf).getLast? <;>
    cases hT : (secs.filterMap txPowerOf).getLast? <;> simp

/-- C6 counterexample: a Tx_Power_Level section with payload byte 0xF0 decodes
to 240 — `int.from_bytes` is called without `signed=True` — refuting the claim
that the payload is interpreted as a signed value (which would be negative). -/
theorem c6_tx_power_unsigned_cex :
    (Advertisement.init c6raw).map Advertisement.tx_power_level = some (some 240) := rfl

/-- C6 amended: both numeric fields decode as unsigned big-endian integers: a
one-byte tx-power payload [b] decodes to b itself (0..255, never negative) and
a two-byte appearance payload [hi, lo] to 256*hi + lo. -/
theorem c6_numeric_fields_unsigned_big_endian (b hi lo : Nat) :
    (Advertisement.init (txOnlyRaw b)).map Advertisement.tx_power_level = some (some b) ∧
    (Advertisement.init (appearanceOnlyRaw hi lo)).map Advertisement.appearance =
      some (some (256 * hi + lo)) := by
  constructor <;>
    simp [txOnlyRaw, appearanceOnlyRaw, Advertisement.init, decodeSections, DataSection.init,
          GAPDataType.ofCode?, parseKnownSections, intFromBytesBE]

/-- C7 counterexample: two devices with distinct addresses queued in arrival
order A then B are emitted B first — `new_devices.pop()` takes the most recent
element — refuting first-match-arrival (FIFO) emission order. -/
theorem c7_lifo_emission_cex :
    c7devA.address ≠ c7devB.address ∧
    findLoop [{ status := .Started, arrivals := [c7devA, c7devB] },
              { status := .Started, arrivals := [] },
              { status := .Stopped, arrivals := [] }] [] = [c7devB, c7devA] := by
  constructor
  · decide
  · rfl

/-- C7 amended: at each live poll the consumer emits the last pending element
of `new_devices` (LIFO): whenever the pending queue ends with d, d is the next
item yielded, ahead of every earlier-arrived still-pending device. -/
theorem c7_pending_queue_pops_last (rest : List LoopStep) (q ar : List BLEDevice) (d : BLEDevice) :
    findLoop ({ status := .Started, arrivals := ar ++ [d] } :: rest) q =
      d :: findLoop rest (q ++ ar) := by
  have h1 : (q ++ (ar ++ [d])).getLast? = some d := by
    rw [← List.append_assoc, List.getLast?_concat]
  have h2 : (q ++ (ar ++ [d])).dropLast = q ++ ar := by
    rw [← List.append_assoc, List.dropLast_concat]
  simp [findLoop, statusKeepsPolling, h1, h2]

/-- C8: in any scan session at most one device is ever emitted per address —
the `new_devices` list built from any event sequence has pairwise distinct
addresses — and a previously stored device is never modified: any map lookup
that succeeded before a callback returns the same device afterwards. -/
theorem c8_at_most_one_emission_per_address (mac name : Option StrFilter)
    (services : List StrFilter) (events : List ReceivedEvent) :
    ((processEvents mac name services events initialScanState).new_devices.map
       BLEDevice.address).Nodup ∧
    (∀ st ev a d, st.devices.lookup a = some d →
      (advertisement_watcher__received mac name services st ev).devices.lookup a = some d) := by
  constructor
  · exact processEvents_invariant mac name services events initialScanState
      (by simp [initialScanState]) (by simp [initialScanState])
  · intro st ev a d h
    simp only [advertisement_watcher__received]
    by_cases hacc : receivedAccepts mac name services ev = true
    · simp only [if_pos hacc]
      by_cases hnone : (st.devices.lookup ev.bluetooth_address).isNone = true
      · simp only [if_pos hnone]
        exact lookup_append_some h
      · simp only [if_neg hnone]
        exact h
    · simp only [if_neg hacc]
      exact h

/-- C8 witness: the theorem applied to a concrete one-event run and to a
concrete state already holding the address. -/
theorem c8_at_most_one_emission_per_address_witness :
    ((processEvents none none [] [w8ev] initialScanState).new_devices.map
       BLEDevice.address).Nodup ∧
    (advertisement_watcher__received none none [] w8st w8ev).devices.lookup
      "EE:EE:EE:EE:EE:01" = some w8dev :=
  ⟨(c8_at_most_one_emission_per_address none none [] [w8ev]).1,
   (c8_at_most_one_emission_per_address none none [] [w8ev]).2 w8st w8ev
     "EE:EE:EE:EE:EE:01" w8dev (by rfl)⟩

/-- C9: `find` normalizes a string MAC filter by uppercasing, deleting every
non-hex-digit character and re-joining two-character slices with colons —
equal, for every input string, to the structural byte-pair normalization — and
the concrete input "fa-bd:60d2_113a" normalizes to "FA:BD:60:D2:11:3A". -/
theorem c9_mac_normalization :
    (∀ s : String, normalizeMacFilter s = specNormalizeMac s) ∧
    normalizeMacFilter "fa-bd:60d2_113a" = "FA:BD:60:D2:11:3A" := by
  constructor
  · intro s
    unfold normalizeMacFilter specNormalizeMac
    rw [pySlices_eq_chunksOfTwo]
  · rfl

/-- C10: a raw advertisement whose platform flags value is 0 decodes to exactly
the same `Advertisement` as the same raw advertisement with a null flags
reference — `flags` is absent in both — so an all-zero flags value is
indistinguishable from a missing flags section at the public interface. -/
theorem c10_zero_flags_indistinguishable (raw : RawAdvertisement) :
    Advertisement.init { raw with flagsValue := some 0 } =
    Advertisement.init { raw with flagsValue := none } := by
  unfold Advertisement.init
  cases h : decodeSections raw.dataSections <;> simp

end BleakSearch
